import Mathlib

/-!
Verification development for the camera streaming repository.

The Python sources are shallowly embedded as Lean definitions:

* `CameraHealthMonitor` (camera_manager.py, class `CameraHealthMonitor`) is a
  structure; its mutating methods become state-passing functions.
* `RobustCameraManager` (camera_manager.py) is a structure `Manager`; hardware
  effects (Picamera2 calls) are resolved by an explicit oracle `Hw` saying
  which hardware calls succeed, what frame the sensor returns and how long the
  blocking capture takes.  Python exceptions become `Except` results carrying
  the mutated state at the raise point.
* The failure-counter branch of `CameraStreamer.main` (cam1_stream.py) and the
  supervisor poll body of start.py are embedded as step functions over the
  kill-file signal value.
* `Inference.check_redis_connection` (client.py) is embedded over an oracle of
  probe outcomes.

Wall-clock time is modelled as `ℚ` (so that sub-second boundaries such as
30.001 s are expressible); `time.time()` results are passed in as `now`
arguments, advanced by the source's `time.sleep` amounts where they occur.
-/

namespace Camera

/-- Issue categories used by `CameraHealthMonitor.log_issue`.  The source
dispatches on the string `issue_type`; the four strings that occur are the
four constructors (any other string would leave all counters unchanged, which
`other` models). -/
inductive IssueType where
  | capture_failure
  | camera_error
  | buffer_error
  | connection_error
  | other
  deriving DecidableEq, Repr

/-- One entry of the `issue_history` deque (camera_manager.py lines 33-40). -/
structure Issue where
  timestamp : ℚ
  issueType : IssueType
  message : String
  severity : String
  consecutive_failures : ℕ
  deriving DecidableEq, Repr

/-- State of `CameraHealthMonitor` (camera_manager.py lines 22-29). -/
structure CameraHealthMonitor where
  issue_history : List Issue
  last_successful_capture : ℚ
  consecutive_failures : ℕ
  camera_errors : ℕ
  buffer_errors : ℕ
  connection_errors : ℕ
  recovery_attempts : ℕ
  deriving DecidableEq, Repr

/-- `CameraHealthMonitor.__init__`: `time.time()` at construction is `t0`. -/
def CameraHealthMonitor.init (t0 : ℚ) : CameraHealthMonitor :=
  { issue_history := []
    last_successful_capture := t0
    consecutive_failures := 0
    camera_errors := 0
    buffer_errors := 0
    connection_errors := 0
    recovery_attempts := 0 }

/-- `deque(maxlen=100)` append: dropping from the left once over capacity. -/
def dequeAppend (xs : List Issue) (x : Issue) : List Issue :=
  let ys := xs ++ [x]
  if 100 < ys.length then ys.drop (ys.length - 100) else ys

/-- `CameraHealthMonitor.log_issue` (camera_manager.py lines 31-51). -/
def log_issue (now : ℚ) (issueType : IssueType) (msg severity : String)
    (m : CameraHealthMonitor) : CameraHealthMonitor :=
  let issue : Issue :=
    { timestamp := now, issueType := issueType, message := msg
      severity := severity, consecutive_failures := m.consecutive_failures }
  let m := { m with issue_history := dequeAppend m.issue_history issue }
  match issueType with
  | .capture_failure => { m with consecutive_failures := m.consecutive_failures + 1 }
  | .camera_error => { m with camera_errors := m.camera_errors + 1 }
  | .buffer_error => { m with buffer_errors := m.buffer_errors + 1 }
  | .connection_error => { m with connection_errors := m.connection_errors + 1 }
  | .other => m

/-- `CameraHealthMonitor.log_success` (camera_manager.py lines 53-58). -/
def log_success (now : ℚ) (m : CameraHealthMonitor) : CameraHealthMonitor :=
  { m with last_successful_capture := now, consecutive_failures := 0 }

/-- `CameraHealthMonitor.should_attempt_recovery` (camera_manager.py lines
60-70). -/
def should_attempt_recovery (now : ℚ) (m : CameraHealthMonitor) : Bool :=
  if 3 ≤ m.consecutive_failures then true
  else if 30 < now - m.last_successful_capture then true
  else false

/-- `CameraHealthMonitor.should_reboot_system` (camera_manager.py lines
72-82). -/
def should_reboot_system (m : CameraHealthMonitor) : Bool :=
  if 10 ≤ m.consecutive_failures then true
  else if 5 ≤ m.recovery_attempts then true
  else false

/-- The dictionary returned by `CameraHealthMonitor.get_health_status`
(camera_manager.py lines 84-95). -/
structure HealthStatus where
  last_successful_capture : ℚ
  consecutive_failures : ℕ
  total_camera_errors : ℕ
  total_buffer_errors : ℕ
  total_connection_errors : ℕ
  recovery_attempts : ℕ
  uptime_since_last_success : ℚ
  health_score : ℤ
  deriving DecidableEq, Repr

/-- `CameraHealthMonitor.get_health_status` (camera_manager.py lines 84-95). -/
def get_health_status (now : ℚ) (m : CameraHealthMonitor) : HealthStatus :=
  { last_successful_capture := m.last_successful_capture
    consecutive_failures := m.consecutive_failures
    total_camera_errors := m.camera_errors
    total_buffer_errors := m.buffer_errors
    total_connection_errors := m.connection_errors
    recovery_attempts := m.recovery_attempts
    uptime_since_last_success := now - m.last_successful_capture
    health_score := max 0 (100 - (m.consecutive_failures : ℤ) * 10) }

/-- One recorded outcome: a successful capture (`log_success`) or an issue
(`log_issue`), each at its wall-clock time. -/
inductive Outcome where
  | success (t : ℚ)
  | issue (t : ℚ) (issueType : IssueType) (msg severity : String)

/-- Apply one outcome to the monitor. -/
def applyOutcome (m : CameraHealthMonitor) (o : Outcome) : CameraHealthMonitor :=
  match o with
  | .success t => log_success t m
  | .issue t ty msg sev => log_issue t ty msg sev m

/-- Camera configuration dictionary (`RobustCameraManager.__init__`,
camera_manager.py lines 102-109; defaults from config.py). -/
structure CameraConfig where
  width : ℕ
  height : ℕ
  format : String
  exposure_time : ℕ
  analogue_gain : ℚ
  frame_rate : ℕ
  deriving DecidableEq, Repr

/-- A frame as returned by `Picamera2.capture_array`: its numpy shape and its
element count (`frame.size`). -/
structure Frame where
  shape : ℕ × ℕ × ℕ
  size : ℕ
  deriving DecidableEq, Repr

/-- The `camera_state` dictionary (camera_manager.py lines 118-125). -/
structure CameraState where
  initialized : Bool
  started : Bool
  capturing : Bool
  last_frame_timestamp : ℚ
  total_frames_captured : ℕ
  total_frames_failed : ℕ
  deriving DecidableEq, Repr

/-- State of `RobustCameraManager`.  `hasCamera` is `self.camera is not None`.
`frame_timeout` is set to 5.0 in `__init__` (line 114). -/
structure Manager where
  hasCamera : Bool
  camera_config : CameraConfig
  health_monitor : CameraHealthMonitor
  is_initialized : Bool
  last_frame_time : ℚ
  frame_timeout : ℚ
  recovery_in_progress : Bool
  camera_state : CameraState
  deriving DecidableEq, Repr

/-- Hardware oracle: outcomes of the Picamera2 calls made during one
operation sequence.  `initOk` covers `Picamera2()`/`configure`/`set_controls`,
`captureResult = none` means `capture_array` raised, `captureErrBufferish`
says whether that exception's text contains "buffer" or "timeout" (lowercase),
and `captureDuration` is how long the blocking `capture_array` call took. -/
structure Hw where
  initOk : Bool
  startOk : Bool
  stopOk : Bool
  closeOk : Bool
  captureResult : Option Frame
  captureErrBufferish : Bool
  captureDuration : ℚ
  deriving DecidableEq, Repr

/-- `RobustCameraManager.stop_camera` (camera_manager.py lines 191-203).  A
raise from `camera.stop()` is caught and logged; the state flags are then not
updated. -/
def stop_camera (hw : Hw) (m : Manager) : Manager :=
  if m.hasCamera && m.camera_state.started then
    if hw.stopOk then
      { m with camera_state :=
          { m.camera_state with started := false, capturing := false } }
    else m
  else m

/-- `RobustCameraManager._cleanup_camera` (camera_manager.py lines 205-223).
Inside `try`: a raise from `camera.stop()` or `camera.close()` aborts the
block (caught and logged), leaving every field as it was; otherwise the
camera is dropped and `camera_state` is reset to its zero value — including
`total_frames_captured` and `total_frames_failed`. -/
def cleanup_camera (hw : Hw) (m : Manager) : Manager :=
  if m.hasCamera then
    if m.camera_state.started && !hw.stopOk then m
    else if !hw.closeOk then m
    else
      { m with hasCamera := false, is_initialized := false
               camera_state :=
                 { initialized := false, started := false, capturing := false
                   last_frame_timestamp := 0, total_frames_captured := 0
                   total_frames_failed := 0 } }
  else m

/-- `RobustCameraManager.initialize_camera` (camera_manager.py lines 130-167).
On failure the `except` branch logs a `camera_error`, clears the initialized
flags and re-raises: the `.error` value carries the state at the raise. -/
def initialize_camera (now : ℚ) (hw : Hw) (m : Manager) :
    Except Manager Manager :=
  let m := if m.hasCamera then cleanup_camera hw m else m
  if hw.initOk then
    .ok { m with hasCamera := true, is_initialized := true
                 camera_state := { m.camera_state with initialized := true } }
  else
    .error
      { m with
          health_monitor :=
            log_issue now .camera_error "Failed to initialize camera" "ERROR"
              m.health_monitor
          is_initialized := false
          camera_state := { m.camera_state with initialized := false } }

/-- `RobustCameraManager.start_camera` (camera_manager.py lines 169-189).
If the camera is not initialized it calls `initialize_camera` first; any
raise (from that call or from `camera.start()`) reaches the `except` branch,
which logs a `camera_error`, clears started/capturing and re-raises. -/
def start_camera (now : ℚ) (hw : Hw) (m : Manager) : Except Manager Manager :=
  let onErr : Manager → Manager := fun m =>
    { m with
        health_monitor :=
          log_issue now .camera_error "Failed to start camera" "ERROR"
            m.health_monitor
        camera_state :=
          { m.camera_state with started := false, capturing := false } }
  let go : Manager → Except Manager Manager := fun m =>
    if !m.camera_state.started then
      if hw.startOk then
        .ok { m with camera_state :=
                { m.camera_state with started := true, capturing := true } }
      else .error (onErr m)
    else .ok m
  if !m.is_initialized then
    match initialize_camera now hw m with
    | .error m => .error (onErr m)
    | .ok m => go m
  else go m

/-- The exceptions `capture_frame_with_timeout` can raise internally, with
whether their text contains "buffer" or "timeout" (the literal messages
"Camera not ready", "Captured frame is empty or None" and
"Frame shape mismatch: ..." contain neither word). -/
inductive CaptureErr where
  | notReady
  | emptyFrame
  | shapeMismatch
  | hwErr (bufferish : Bool)
  deriving DecidableEq, Repr

/-- Whether `'buffer' in str(e).lower() or 'timeout' in str(e).lower()`. -/
def CaptureErr.bufferish : CaptureErr → Bool
  | .hwErr b => b
  | _ => false

def CaptureErr.text : CaptureErr → String
  | .notReady => "Camera not ready"
  | .emptyFrame => "Captured frame is empty or None"
  | .shapeMismatch => "Frame shape mismatch"
  | .hwErr _ => "capture_array raised"

/-- `RobustCameraManager.capture_frame_with_timeout` (camera_manager.py lines
225-276).  The `timeout` argument (defaulting to `frame_timeout`) is bound
but — exactly as in the source — never consulted again: the blocking
`capture_array` call runs to completion inside the `camera_lock` block
regardless of how long it takes; `captureDuration` only feeds the post-hoc
`capture_time` measurement and the timestamps.  Every failure lands in the
`except` branch: `log_issue capture_failure`, `total_frames_failed += 1`,
plus a `buffer_error` log when the message is buffer/timeout-flavoured, and
the function returns `(False, None)` — never a partial frame. -/
def capture_frame_with_timeout (now : ℚ) (hw : Hw) (timeoutArg : Option ℚ)
    (m : Manager) : (Bool × Option Frame) × Manager :=
  let _timeout : ℚ := timeoutArg.getD m.frame_timeout
  let fail : CaptureErr → Manager → (Bool × Option Frame) × Manager :=
    fun e m =>
      let m :=
        { m with
            health_monitor :=
              log_issue now .capture_failure
                ("Frame capture failed: " ++ e.text) "WARNING" m.health_monitor
            camera_state :=
              { m.camera_state with
                  total_frames_failed := m.camera_state.total_frames_failed + 1 } }
      let m :=
        if e.bufferish then
          { m with health_monitor :=
              (log_issue now .buffer_error "Buffer issue detected" "WARNING"
                m.health_monitor) }
        else m
      ((false, none), m)
  if !m.is_initialized || !m.camera_state.started then fail .notReady m
  else
    let m :=
      if 30 < now - m.last_frame_time then
        { m with health_monitor :=
            (log_issue now .connection_error "Camera appears unresponsive"
              "WARNING" m.health_monitor) }
      else m
    match hw.captureResult with
    | none => fail (.hwErr hw.captureErrBufferish) m
    | some frame =>
      if frame.size = 0 then fail .emptyFrame m
      else if frame.shape ≠ (m.camera_config.height, m.camera_config.width, 3) then
        fail .shapeMismatch m
      else
        let t := now + hw.captureDuration
        let m :=
          { m with
              last_frame_time := t
              camera_state :=
                { m.camera_state with
                    last_frame_timestamp := t
                    total_frames_captured := m.camera_state.total_frames_captured + 1 }
              health_monitor := log_success t m.health_monitor }
        ((true, some frame), m)

/-- The `try`/`except` body of `RobustCameraManager.attempt_camera_recovery`
(camera_manager.py lines 287-319): stop → cleanup → reinitialize → start →
diagnostic capture with `timeout=10`.  The wall clock advances by the
source's `time.sleep` amounts (2 s, 1 s, 1 s, 2 s), so the diagnostic capture
runs at `now + 6`.  A raise out of `initialize_camera` or `start_camera` is
caught by the `except` clause, which returns `False`; a successful diagnostic
capture resets `recovery_attempts` to 0 and returns `True`. -/
def recovery_sequence (now : ℚ) (hw : Hw) (m : Manager) : Bool × Manager :=
  let m := stop_camera hw m
  let m := cleanup_camera hw m
  match initialize_camera (now + 3) hw m with
  | .error m => (false, m)
  | .ok m =>
    match start_camera (now + 4) hw m with
    | .error m => (false, m)
    | .ok m =>
      match capture_frame_with_timeout (now + 6) hw (some 10) m with
      | ((true, _), m) =>
        (true,
          { m with health_monitor :=
              { m.health_monitor with recovery_attempts := 0 } })
      | ((false, _), m) => (false, m)

/-- `RobustCameraManager.attempt_camera_recovery` (camera_manager.py lines
278-321): the re-entry guard, the `recovery_attempts` increment, the
`try` body (`recovery_sequence`), and the `finally` clause, which clears
`recovery_in_progress` on every exit path of the body. -/
def attempt_camera_recovery (now : ℚ) (hw : Hw) (m : Manager) :
    Bool × Manager :=
  if m.recovery_in_progress then (false, m)
  else
    let m := { m with recovery_in_progress := true }
    let m :=
      { m with health_monitor :=
          { m.health_monitor with
              recovery_attempts := m.health_monitor.recovery_attempts + 1 } }
    let r := recovery_sequence now hw m
    (r.1, { r.2 with recovery_in_progress := false })

/-- The kill-file write performed by cam1_stream.py lines 278-283 (and by the
final handler at lines 307-312, and by `force_system_reboot`): read the file,
and only when its stripped content is `"0"` overwrite it with `"1"`. -/
def killFileRequest (sig : String) : String :=
  if sig = "0" then "1" else sig

/-- One pass through the failed-frame branch of `CameraStreamer.main`
(cam1_stream.py lines 275-285): `if count > 10: count = 0; <kill-file write>`
then `count += 1`.  State is `(count, kill-file content)`. -/
def failureStep (st : ℕ × String) : ℕ × String :=
  let (count, sig) := st
  if 10 < count then
    let count := 0
    let sig := killFileRequest sig
    (count + 1, sig)
  else (count + 1, sig)

/-- State after `n` consecutive failed frame fetches, starting from the
initial `count = 0` (cam1_stream.py line 215) and kill-file content `"0"`. -/
def runFailures : ℕ → ℕ × String
  | 0 => (0, "0")
  | n + 1 => failureStep (runFailures n)

/-- Whether the `n`-th failure (1-indexed) enters the kill-file request
branch, i.e. finds `count > 10`. -/
def killRequestedOn (n : ℕ) : Bool :=
  10 < (runFailures (n - 1)).fst

/-- Events emitted by one pass of the supervisor poll body in start.py
(lines 209-221). -/
inductive SupEvent where
  | terminate
  | writeSignal (v : String)
  | spawn
  deriving DecidableEq, Repr

/-- One pass of the start.py `__main__` poll loop over the kill file (lines
211-219): when the stripped content reads `"1"`, it kills `cam1_stream.py`,
seeks to 0 and writes `"0"` (truncating), and only then launches the
replacement with `os.system`.  Returns the persisted content after the pass
and the ordered event trace. -/
def supervisorPoll (content : String) : String × List SupEvent :=
  if content = "1" then
    ("0", [SupEvent.terminate, SupEvent.writeSignal "0", SupEvent.spawn])
  else (content, [])

/-- The kill-file value after a prefix of supervisor events has happened. -/
def applyWrites (v : String) (evts : List SupEvent) : String :=
  evts.foldl (fun v e => match e with | .writeSignal w => w | _ => v) v

/-- Outcome of a `ping()` call: a returned boolean, or a raised exception. -/
inductive PingResult where
  | ok (b : Bool)
  | exn
  deriving DecidableEq, Repr

namespace Inference

/-- The observable state probed by `Inference.check_redis_connection`
(client.py lines 53-63): the `ping()` outcome and the truthiness of
`self.pubsub.connection`. -/
structure Conns where
  ping : PingResult
  pubsub_connection : Bool
  deriving DecidableEq, Repr

/-- `Inference.check_redis_connection` (client.py lines 53-63): returns
`False` if `ping()` is falsy, then `False` if `pubsub.connection` is falsy,
else `True`; any exception yields `False`. -/
def check_redis_connection (c : Conns) : Bool :=
  match c.ping with
  | .exn => false
  | .ok b => if !b then false else if !c.pubsub_connection then false else true

end Inference

namespace Streamer

/-- The four probes of `CameraStreamer.check_redis_connection`
(cam1_stream.py lines 192-210). -/
structure Conns where
  redis_ping : PingResult
  pubsub_connection : Bool
  dt_ping : PingResult
  dt_p_connection : Bool
  deriving DecidableEq, Repr

/-- `CameraStreamer.check_redis_connection` (cam1_stream.py lines 192-210). -/
def check_redis_connection (c : Conns) : Bool :=
  match c.redis_ping with
  | .exn => false
  | .ok b =>
    if !b then false
    else if !c.pubsub_connection then false
    else
      match c.dt_ping with
      | .exn => false
      | .ok b2 =>
        if !b2 then false
        else if !c.dt_p_connection then false
        else true

end Streamer

/-- Collapse an `Except Manager Manager` to the carried state (both the
normal-return and the raise constructor carry the mutated manager). -/
def exceptState : Except Manager Manager → Manager
  | .ok m => m
  | .error m => m

/-- The camera configuration built from config.py's constants. -/
def defaultConfig : CameraConfig :=
  { width := 1270, height := 720, format := "RGB888"
    exposure_time := 250, analogue_gain := 3, frame_rate := 100 }

/-- A frame matching the configured shape `(height, width, 3)`. -/
def goodFrame : Frame :=
  { shape := (720, 1270, 3), size := 720 * 1270 * 3 }

/-- Hardware oracle in which every Picamera2 call succeeds instantly and the
sensor returns a well-shaped frame. -/
def hwAllOk : Hw :=
  { initOk := true, startOk := true, stopOk := true, closeOk := true
    captureResult := some goodFrame, captureErrBufferish := false
    captureDuration := 0 }

/-- A manager that is initialized, started and idle (no recovery running). -/
def readyManager : Manager :=
  { hasCamera := true, camera_config := defaultConfig
    health_monitor := CameraHealthMonitor.init 0
    is_initialized := true, last_frame_time := 0, frame_timeout := 5
    recovery_in_progress := false
    camera_state :=
      { initialized := true, started := true, capturing := true
        last_frame_timestamp := 0, total_frames_captured := 0
        total_frames_failed := 0 } }

/-- `readyManager` while a recovery is already in flight. -/
def busyManager : Manager :=
  { readyManager with recovery_in_progress := true }

/-- `hwAllOk` except that `capture_array` raises (a failing diagnostic
capture). -/
def hwCapFail : Hw := { hwAllOk with captureResult := none }

/-- `hwAllOk` except that the blocking `capture_array` call takes 100 s. -/
def hwSlow : Hw := { hwAllOk with captureDuration := 100 }

/-- `readyManager` after five successful captures had been counted. -/
def manager5 : Manager :=
  { readyManager with camera_state :=
      { readyManager.camera_state with total_frames_captured := 5 } }

/-! ## Theorems -/

/-- C1: for every sequence of recorded outcomes (successes and failures), the
health score reported by `get_health_status` equals
`max 0 (100 − 10 × consecutive_failures)` after each outcome; it is
recomputed on read from `consecutive_failures` and stored nowhere in the
monitor state. -/
theorem C1_health_score_recomputed (t0 now : ℚ) (os : List Outcome) :
    (get_health_status now
        (os.foldl applyOutcome (CameraHealthMonitor.init t0))).health_score
      = max 0 (100 - 10 *
          ((os.foldl applyOutcome
              (CameraHealthMonitor.init t0)).consecutive_failures : ℤ)) := by
  simp [get_health_status, mul_comm]

/-- C2: `should_attempt_recovery` is true iff `consecutive_failures ≥ 3` or
more than 30 seconds elapsed since the last successful capture; with a recent
success it is true at exactly 3 consecutive failures and false at 2, and with
zero failures it is false at exactly 30.0 s elapsed and true just above
30 s. -/
theorem C2_should_attempt_recovery_iff :
    (∀ (now : ℚ) (m : CameraHealthMonitor),
        should_attempt_recovery now m = true ↔
          3 ≤ m.consecutive_failures ∨ 30 < now - m.last_successful_capture)
    ∧ should_attempt_recovery 10
        { CameraHealthMonitor.init 0 with
            last_successful_capture := 5, consecutive_failures := 3 } = true
    ∧ should_attempt_recovery 10
        { CameraHealthMonitor.init 0 with
            last_successful_capture := 5, consecutive_failures := 2 } = false
    ∧ should_attempt_recovery 30 (CameraHealthMonitor.init 0) = false
    ∧ should_attempt_recovery (30 + 1/1000) (CameraHealthMonitor.init 0) = true := by
  refine ⟨fun now m => ?_,
    by norm_num [should_attempt_recovery, CameraHealthMonitor.init],
    by norm_num [should_attempt_recovery, CameraHealthMonitor.init],
    by norm_num [should_attempt_recovery, CameraHealthMonitor.init],
    by norm_num [should_attempt_recovery, CameraHealthMonitor.init]⟩
  simp only [should_attempt_recovery]
  split_ifs with h1 h2
  · simp [h1]
  · simp [h2]
  · simp [h1, h2]

/-- C8: from any monitor state reachable by recording failures, one
`log_success` call sets `consecutive_failures` to 0 and the last-success
timestamp to the call time, leaving the per-cause totals and
`recovery_attempts` unchanged. -/
theorem C8_log_success_resets_only_failures (t0 tSucc : ℚ)
    (failures : List (ℚ × IssueType × String × String)) :
    let s := failures.foldl
      (fun m f => log_issue f.1 f.2.1 f.2.2.1 f.2.2.2 m)
      (CameraHealthMonitor.init t0)
    (log_success tSucc s).consecutive_failures = 0
    ∧ (log_success tSucc s).last_successful_capture = tSucc
    ∧ (log_success tSucc s).camera_errors = s.camera_errors
    ∧ (log_success tSucc s).buffer_errors = s.buffer_errors
    ∧ (log_success tSucc s).connection_errors = s.connection_errors
    ∧ (log_success tSucc s).recovery_attempts = s.recovery_attempts := by
  simp [log_success]

/-- C9: the connection health check returns false as soon as the ping fails
or the pubsub handle is inactive, even when the other passes, returns true
exactly when every probed condition holds, and an exception during the check
yields false — for both `Inference.check_redis_connection` (client.py) and
`CameraStreamer.check_redis_connection` (cam1_stream.py). -/
theorem C9_check_redis_connection_iff :
    (∀ c : Inference.Conns,
        Inference.check_redis_connection c = true ↔
          c.ping = PingResult.ok true ∧ c.pubsub_connection = true)
    ∧ Inference.check_redis_connection ⟨PingResult.ok false, true⟩ = false
    ∧ Inference.check_redis_connection ⟨PingResult.ok true, false⟩ = false
    ∧ Inference.check_redis_connection ⟨PingResult.exn, true⟩ = false
    ∧ (∀ c : Streamer.Conns,
        Streamer.check_redis_connection c = true ↔
          c.redis_ping = PingResult.ok true ∧ c.pubsub_connection = true
          ∧ c.dt_ping = PingResult.ok true ∧ c.dt_p_connection = true) := by
  refine ⟨fun c => ?_, by decide, by decide, by decide, fun c => ?_⟩
  · obtain ⟨p, pc⟩ := c
    cases p with
    | exn => simp [Inference.check_redis_connection]
    | ok b => cases b <;> cases pc <;>
        simp [Inference.check_redis_connection]
  · obtain ⟨p, pc, q, qc⟩ := c
    cases p with
    | exn => simp [Streamer.check_redis_connection]
    | ok b =>
      cases q with
      | exn => cases b <;> cases pc <;> simp [Streamer.check_redis_connection]
      | ok b2 => cases b <;> cases b2 <;> cases pc <;> cases qc <;>
          simp [Streamer.check_redis_connection]

lemma log_issue_recovery_attempts (now : ℚ) (ty : IssueType) (msg sev : String)
    (m : CameraHealthMonitor) :
    (log_issue now ty msg sev m).recovery_attempts = m.recovery_attempts := by
  cases ty <;> rfl

lemma log_success_recovery_attempts (t : ℚ) (m : CameraHealthMonitor) :
    (log_success t m).recovery_attempts = m.recovery_attempts := rfl

lemma stop_camera_monitor (hw : Hw) (m : Manager) :
    (stop_camera hw m).health_monitor = m.health_monitor := by
  unfold stop_camera
  split_ifs <;> rfl

lemma cleanup_camera_monitor (hw : Hw) (m : Manager) :
    (cleanup_camera hw m).health_monitor = m.health_monitor := by
  unfold cleanup_camera
  split_ifs <;> rfl

lemma initialize_camera_attempts (now : ℚ) (hw : Hw) (m : Manager) :
    (exceptState (initialize_camera now hw m)).health_monitor.recovery_attempts
      = m.health_monitor.recovery_attempts := by
  unfold initialize_camera
  by_cases hc : m.hasCamera <;> by_cases hi : hw.initOk <;>
    simp [hc, hi, exceptState, cleanup_camera_monitor, log_issue_recovery_attempts]

lemma start_camera_attempts (now : ℚ) (hw : Hw) (m : Manager) :
    (exceptState (start_camera now hw m)).health_monitor.recovery_attempts
      = m.health_monitor.recovery_attempts := by
  unfold start_camera
  by_cases hinit : m.is_initialized
  · by_cases hst : m.camera_state.started <;> by_cases hok : hw.startOk <;>
      simp [hinit, hst, hok, exceptState, log_issue_recovery_attempts]
  · simp only [hinit, Bool.not_false, if_pos]
    cases hI : initialize_camera now hw m with
    | error m' =>
      have h := initialize_camera_attempts now hw m
      rw [hI] at h
      simp only [exceptState] at h ⊢
      simp [log_issue_recovery_attempts, h]
    | ok m' =>
      have h := initialize_camera_attempts now hw m
      rw [hI] at h
      simp only [exceptState] at h ⊢
      by_cases hst : m'.camera_state.started <;> by_cases hok : hw.startOk <;>
        simp [hst, hok, exceptState, log_issue_recovery_attempts, h]

lemma capture_attempts (now : ℚ) (hw : Hw) (targ : Option ℚ) (m : Manager) :
    ((capture_frame_with_timeout now hw targ m).2).health_monitor.recovery_attempts
      = m.health_monitor.recovery_attempts := by
  unfold capture_frame_with_timeout
  cases hr : hw.captureResult <;>
    simp only [hr, CaptureErr.bufferish] <;>
    split_ifs <;>
    simp [log_issue_recovery_attempts, log_success_recovery_attempts]

lemma recovery_sequence_attempts (now : ℚ) (hw : Hw) (m : Manager) :
    ((recovery_sequence now hw m).1 = true →
        (recovery_sequence now hw m).2.health_monitor.recovery_attempts = 0)
    ∧ ((recovery_sequence now hw m).1 = false →
        (recovery_sequence now hw m).2.health_monitor.recovery_attempts
          = m.health_monitor.recovery_attempts) := by
  have hm4 : (cleanup_camera hw (stop_camera hw m)).health_monitor.recovery_attempts
      = m.health_monitor.recovery_attempts := by
    rw [cleanup_camera_monitor, stop_camera_monitor]
  simp only [recovery_sequence]
  rcases hI : initialize_camera (now + 3) hw (cleanup_camera hw (stop_camera hw m))
    with m5 | m5
  · have h5 := initialize_camera_attempts (now + 3) hw
      (cleanup_camera hw (stop_camera hw m))
    rw [hI] at h5
    simp only [exceptState] at h5
    simp only [hI]
    exact ⟨fun hres => by simp at hres, fun _ => h5.trans hm4⟩
  · have h5 := initialize_camera_attempts (now + 3) hw
      (cleanup_camera hw (stop_camera hw m))
    rw [hI] at h5
    simp only [exceptState] at h5
    simp only [hI]
    rcases hS : start_camera (now + 4) hw m5 with m6 | m6
    · have h6 := start_camera_attempts (now + 4) hw m5
      rw [hS] at h6
      simp only [exceptState] at h6
      simp only [hS]
      exact ⟨fun hres => by simp at hres, fun _ => (h6.trans h5).trans hm4⟩
    · have h6 := start_camera_attempts (now + 4) hw m5
      rw [hS] at h6
      simp only [exceptState] at h6
      simp only [hS]
      rcases hC : capture_frame_with_timeout (now + 6) hw (some 10) m6
        with ⟨⟨res, fr⟩, m7⟩
      have h7 := capture_attempts (now + 6) hw (some 10) m6
      rw [hC] at h7
      simp only at h7
      cases res
      · exact ⟨fun hres => by simp at hres,
          fun _ => ((h7.trans h6).trans h5).trans hm4⟩
      · exact ⟨fun _ => rfl, fun hres => by simp at hres⟩

/-- C3: at most one recovery is in flight — a call to
`attempt_camera_recovery` made while `recovery_in_progress` is set returns
failure immediately with the state (hence `recovery_attempts`) untouched, and
a call that passes the guard clears `recovery_in_progress` on every exit
path, the exception paths included. -/
theorem C3_single_recovery_in_flight :
    (∀ (now : ℚ) (hw : Hw) (m : Manager), m.recovery_in_progress = true →
        attempt_camera_recovery now hw m = (false, m))
    ∧ (∀ (now : ℚ) (hw : Hw) (m : Manager), m.recovery_in_progress = false →
        (attempt_camera_recovery now hw m).2.recovery_in_progress = false) := by
  constructor
  · intro now hw m h
    simp [attempt_camera_recovery, h]
  · intro now hw m h
    simp [attempt_camera_recovery, h]

/-- C3 witness: a busy manager rejects a second recovery unchanged; an idle
manager's recovery ends with the guard cleared. -/
theorem C3_witness :
    attempt_camera_recovery 0 hwAllOk busyManager = (false, busyManager)
    ∧ (attempt_camera_recovery 0 hwAllOk readyManager).2.recovery_in_progress
        = false :=
  ⟨C3_single_recovery_in_flight.1 0 hwAllOk busyManager rfl,
   C3_single_recovery_in_flight.2 0 hwAllOk readyManager rfl⟩

/-- C4: a recovery attempt that passes the guard increments
`recovery_attempts` by exactly 1; when the closing diagnostic capture
succeeds the count is reset to 0 and the call returns success, and on every
failing exit (failed diagnostic capture, or a raise out of
`initialize_camera`/`start_camera`) the count stays at the incremented
value. -/
theorem C4_recovery_attempts_bookkeeping (now : ℚ) (hw : Hw) (m : Manager)
    (h : m.recovery_in_progress = false) :
    ((attempt_camera_recovery now hw m).1 = true →
        (attempt_camera_recovery now hw m).2.health_monitor.recovery_attempts
          = 0)
    ∧ ((attempt_camera_recovery now hw m).1 = false →
        (attempt_camera_recovery now hw m).2.health_monitor.recovery_attempts
          = m.health_monitor.recovery_attempts + 1) := by
  have seq := recovery_sequence_attempts now hw
    { m with
        recovery_in_progress := true
        health_monitor :=
          { m.health_monitor with
              recovery_attempts := m.health_monitor.recovery_attempts + 1 } }
  constructor
  · intro hres
    simp only [attempt_camera_recovery, h, Bool.false_eq_true, if_false] at hres ⊢
    exact seq.1 hres
  · intro hres
    simp only [attempt_camera_recovery, h, Bool.false_eq_true, if_false] at hres ⊢
    exact seq.2 hres

/-- C4 witness: with every hardware call succeeding the recovery returns with
`recovery_attempts = 0`; with a failing diagnostic capture it returns with
the count at the incremented value `0 + 1`. -/
theorem C4_witness :
    (attempt_camera_recovery 0 hwAllOk readyManager).2.health_monitor.recovery_attempts
        = 0
    ∧ (attempt_camera_recovery 0 hwCapFail readyManager).2.health_monitor.recovery_attempts
        = readyManager.health_monitor.recovery_attempts + 1 :=
  ⟨(C4_recovery_attempts_bookkeeping 0 hwAllOk readyManager rfl).1
      (by norm_num [attempt_camera_recovery, recovery_sequence, stop_camera,
        cleanup_camera, initialize_camera, start_camera,
        capture_frame_with_timeout, hwAllOk, readyManager, defaultConfig,
        goodFrame, log_issue, log_success, CameraHealthMonitor.init]),
   (C4_recovery_attempts_bookkeeping 0 hwCapFail readyManager rfl).2
      (by norm_num [attempt_camera_recovery, recovery_sequence, stop_camera,
        cleanup_camera, initialize_camera, start_camera,
        capture_frame_with_timeout, hwCapFail, hwAllOk, readyManager,
        defaultConfig, goodFrame, log_issue, log_success, CaptureErr.bufferish,
        CameraHealthMonitor.init])⟩

/-- C5: the `timeout` argument of `capture_frame_with_timeout` is bound but
never enforced — the function's result is identical for any two timeout
arguments, and a blocking hardware capture of 100 s against the default 5 s
timeout still returns the frame as a success instead of failing with a
Timeout classification.  (The blocking call also runs inside the
`camera_lock` block.)  This contradicts the claim and the function's own
name and docstring. -/
theorem C5_timeout_not_enforced :
    (∀ (now : ℚ) (hw : Hw) (t1 t2 : Option ℚ) (m : Manager),
        capture_frame_with_timeout now hw t1 m
          = capture_frame_with_timeout now hw t2 m)
    ∧ (capture_frame_with_timeout 0 hwSlow none readyManager).1
        = (true, some goodFrame)
    ∧ readyManager.frame_timeout < hwSlow.captureDuration := by
  refine ⟨fun now hw t1 t2 m => rfl, ?_, by norm_num [hwSlow, hwAllOk, readyManager]⟩
  norm_num [capture_frame_with_timeout, hwSlow, hwAllOk, readyManager,
    defaultConfig, goodFrame, log_success]

/-- C7: when the supervisor poll observes kill-file content `"1"`, it
terminates the capture process, persists `"0"`, and only afterwards spawns
the replacement: every `spawn` in the emitted event trace is preceded by a
prefix after which the persisted signal value is `"0"`. -/
theorem C7_reset_before_spawn (content : String) (h : content = "1") :
    (supervisorPoll content).1 = "0"
    ∧ SupEvent.terminate ∈ (supervisorPoll content).2
    ∧ ∀ pre post, (supervisorPoll content).2 = pre ++ SupEvent.spawn :: post →
        applyWrites content pre = "0" := by
  subst h
  refine ⟨rfl, by simp [supervisorPoll], ?_⟩
  intro pre post hsplit
  simp only [supervisorPoll, if_pos] at hsplit
  rcases pre with _ | ⟨a, _ | ⟨b, _ | ⟨c, rest⟩⟩⟩
  · simp at hsplit
  · simp at hsplit
  · simp at hsplit
    obtain ⟨ha, hb, -⟩ := hsplit
    subst ha
    subst hb
    rfl
  · simp at hsplit

/-- C7 witness: the poll pass on `"1"` persists `"0"`, and the trace prefix
before the spawn leaves the signal at `"0"`. -/
theorem C7_witness :
    (supervisorPoll "1").1 = "0"
    ∧ applyWrites "1" [SupEvent.terminate, SupEvent.writeSignal "0"] = "0" :=
  ⟨(C7_reset_before_spawn "1" rfl).1,
   (C7_reset_before_spawn "1" rfl).2.2
     [SupEvent.terminate, SupEvent.writeSignal "0"] [] rfl⟩

lemma failureStep_fst (st : ℕ × String) :
    (failureStep st).1 = if 10 < st.1 then 1 else st.1 + 1 := by
  obtain ⟨c, s⟩ := st
  simp only [failureStep]
  split_ifs <;> rfl

lemma failureStep_snd (st : ℕ × String) :
    (failureStep st).2 = if 10 < st.1 then killFileRequest st.2 else st.2 := by
  obtain ⟨c, s⟩ := st
  simp only [failureStep]
  split_ifs <;> rfl

lemma runFailures_fst (n : ℕ) :
    (runFailures n).1 = if n ≤ 11 then n else (n - 12) % 11 + 1 := by
  induction n with
  | zero => rfl
  | succ k ih =>
    rw [runFailures, failureStep_fst, ih]
    split_ifs <;> omega

lemma runFailures_snd (n : ℕ) :
    (runFailures n).2 = if n ≤ 11 then "0" else "1" := by
  induction n with
  | zero => rfl
  | succ k ih =>
    have hf := runFailures_fst k
    rw [runFailures, failureStep_snd, hf, ih]
    by_cases h11 : k ≤ 11
    · by_cases h10 : (10 : ℕ) < k
      · have hk : k = 11 := by omega
        subst hk
        simp [killFileRequest]
      · have : k + 1 ≤ 11 := by omega
        simp [h11, h10, this]
    · have h1 : ¬k + 1 ≤ 11 := by omega
      simp only [h11, if_false, h1]
      split_ifs with h10
      · rfl
      · rfl

/-- C6 counterexample: after 11 consecutive frame-fetch failures from the
initial state (`count = 0`, kill file `"0"`), the kill file still reads `"0"`
and the 11th failure did not enter the restart-request branch — the claim
that the signal is set on the 11th consecutive failure is false. -/
theorem C6_counterexample :
    (runFailures 11).2 = "0" ∧ killRequestedOn 11 = false := by
  constructor
  · simp [runFailures_snd]
  · simp [killRequestedOn, runFailures_fst]

/-- C6 amended: the restart request is first triggered on the 12th
frame-fetch failure and then on every 11th failure after that (failures 12,
23, 34, …): the `n`-th failure enters the request branch iff `12 ≤ n` and
`(n − 12) % 11 = 0`, and the kill file reads `"1"` exactly after 12 or more
failures. -/
theorem C6_kill_request_on_twelfth (n : ℕ) (hn : 1 ≤ n) :
    (killRequestedOn n = true ↔ 12 ≤ n ∧ (n - 12) % 11 = 0)
    ∧ ((runFailures n).2 = "1" ↔ 12 ≤ n) := by
  constructor
  · simp only [killRequestedOn, decide_eq_true_eq, runFailures_fst]
    split_ifs with h <;> constructor <;> intro h2 <;> omega
  · rw [runFailures_snd]
    split_ifs with h
    · constructor <;> intro h2 <;> [exact absurd h2 (by decide); omega]
    · constructor <;> intro h2 <;> [omega; rfl]

/-- C6 witness: the 12th failure does trigger the restart request and leaves
the kill file at `"1"`. -/
theorem C6_witness :
    killRequestedOn 12 = true ∧ (runFailures 12).2 = "1" :=
  ⟨(C6_kill_request_on_twelfth 12 (by norm_num)).1.mpr (by norm_num),
   (C6_kill_request_on_twelfth 12 (by norm_num)).2.mpr (by norm_num)⟩

lemma capture_totals_mono_captured (now : ℚ) (hw : Hw) (targ : Option ℚ)
    (m : Manager) :
    m.camera_state.total_frames_captured
      ≤ (capture_frame_with_timeout now hw targ m).2.camera_state.total_frames_captured := by
  unfold capture_frame_with_timeout
  cases hr : hw.captureResult <;>
    simp only [hr, CaptureErr.bufferish] <;>
    split_ifs <;> simp

lemma capture_totals_mono_failed (now : ℚ) (hw : Hw) (targ : Option ℚ)
    (m : Manager) :
    m.camera_state.total_frames_failed
      ≤ (capture_frame_with_timeout now hw targ m).2.camera_state.total_frames_failed := by
  unfold capture_frame_with_timeout
  cases hr : hw.captureResult <;>
    simp only [hr, CaptureErr.bufferish] <;>
    split_ifs <;> simp

lemma cleanup_after_stop (m : Manager) (h2 : m.hasCamera = true) :
    cleanup_camera hwAllOk (stop_camera hwAllOk m)
      = { m with
            hasCamera := false
            is_initialized := false
            camera_state :=
              { initialized := false, started := false, capturing := false
                last_frame_timestamp := 0, total_frames_captured := 0
                total_frames_failed := 0 } } := by
  by_cases hst : m.camera_state.started <;>
    simp [stop_camera, cleanup_camera, hwAllOk, h2, hst]

lemma recovery_sequence_totals (now : ℚ) (m : Manager) (h2 : m.hasCamera = true) :
    (recovery_sequence now hwAllOk m).2.camera_state.total_frames_captured ≤ 1
    ∧ (recovery_sequence now hwAllOk m).2.camera_state.total_frames_failed ≤ 1 := by
  simp only [recovery_sequence, cleanup_after_stop m h2]
  simp only [initialize_camera, start_camera, capture_frame_with_timeout, hwAllOk]
  norm_num
  split_ifs <;> simp [CaptureErr.bufferish]

/-- C10 counterexample: the cumulative frame totals are not preserved by the
recovery sequence — starting from `total_frames_captured = 5`, a recovery in
which every hardware call succeeds ends with `total_frames_captured = 1`
(the diagnostic capture after `_cleanup_camera` reset the totals to 0), a
strict decrease. -/
theorem C10_counterexample :
    manager5.camera_state.total_frames_captured = 5
    ∧ (attempt_camera_recovery 0 hwAllOk manager5).2.camera_state.total_frames_captured
        = 1 := by
  constructor
  · rfl
  · norm_num [attempt_camera_recovery, recovery_sequence, stop_camera,
      cleanup_camera, initialize_camera, start_camera,
      capture_frame_with_timeout, hwAllOk, manager5, readyManager,
      defaultConfig, goodFrame, log_issue, log_success,
      CameraHealthMonitor.init]

/-- C10 amended: `total_frames_captured`/`total_frames_failed` never decrease
under `capture_frame_with_timeout` and are unchanged by `stop_camera`, but
`_cleanup_camera` either leaves the manager untouched or resets both totals
to 0, and the recovery sequence invokes it: a recovery that passes the guard
on a live camera, with all hardware calls succeeding, ends with both totals
at most 1 regardless of their previous values. -/
theorem C10_totals_reset_by_recovery :
    (∀ (now : ℚ) (hw : Hw) (targ : Option ℚ) (m : Manager),
        m.camera_state.total_frames_captured
            ≤ (capture_frame_with_timeout now hw targ m).2.camera_state.total_frames_captured
        ∧ m.camera_state.total_frames_failed
            ≤ (capture_frame_with_timeout now hw targ m).2.camera_state.total_frames_failed)
    ∧ (∀ (hw : Hw) (m : Manager),
        (stop_camera hw m).camera_state.total_frames_captured
            = m.camera_state.total_frames_captured
        ∧ (stop_camera hw m).camera_state.total_frames_failed
            = m.camera_state.total_frames_failed)
    ∧ (∀ (hw : Hw) (m : Manager),
        ((cleanup_camera hw m).camera_state.total_frames_captured = 0
          ∧ (cleanup_camera hw m).camera_state.total_frames_failed = 0)
        ∨ cleanup_camera hw m = m)
    ∧ (∀ (now : ℚ) (m : Manager),
        m.recovery_in_progress = false → m.hasCamera = true →
        (attempt_camera_recovery now hwAllOk m).2.camera_state.total_frames_captured ≤ 1
        ∧ (attempt_camera_recovery now hwAllOk m).2.camera_state.total_frames_failed ≤ 1) := by
  refine ⟨fun now hw targ m =>
      ⟨capture_totals_mono_captured now hw targ m,
       capture_totals_mono_failed now hw targ m⟩,
    fun hw m => ?_, fun hw m => ?_, fun now m h1 h2 => ?_⟩
  · unfold stop_camera
    split_ifs <;> simp
  · unfold cleanup_camera
    split_ifs <;> simp
  · simp only [attempt_camera_recovery, h1, Bool.false_eq_true, if_false]
    exact recovery_sequence_totals now _ h2

/-- C10 witness: from five counted captures, the all-hardware-ok recovery
leaves both totals at most 1. -/
theorem C10_witness :
    (attempt_camera_recovery 0 hwAllOk manager5).2.camera_state.total_frames_captured ≤ 1
    ∧ (attempt_camera_recovery 0 hwAllOk manager5).2.camera_state.total_frames_failed ≤ 1 :=
  C10_totals_reset_by_recovery.2.2.2 0 manager5 rfl rfl

end Camera
